import Mathlib

/-!
Verification of the AstroEQ firmware core (AstroEQ-Firmware/AstroEQ.cpp)
against its natural-language specification.

The per-axis Motion State, the Step Engine interrupt routine, the Motor
Controller operations, the goto planner, the main-loop dispatcher, the
ST4 pin-change handler and the relevant command-decoder cases are given
a shallow embedding as pure functions on explicit state records.
Machine integers are modelled as `Nat`/`Int`, with `% 2^w` inserted at
the points where the C code's fixed-width arithmetic can wrap
(`unsigned int` = 16 bits, `unsigned long` = 32 bits, `byte` = 8 bits
on the AVR targets this firmware supports).

The two timer-capture interrupt routines (TIMER1 for RA, TIMER3 for DC)
are textually identical up to the axis index, as are motorStartRA /
motorStartDC and motorStopRA / motorStopDC; each is modelled once as a
function on a single axis state.
-/

namespace AstroEQ

/-- One record of the acceleration profile: `{speed, repeats}`.
`speed` is an `unsigned int` period (timer ticks per half-step),
`repeats` a `byte` dwell count (AstroEQ.h declares the table entry
type; values are written by the X command as one byte). -/
structure AccelEntry where
  speed : Nat
  repeats : Nat
deriving DecidableEq, Repr

/-- Modelled from the spec: `AccelTableLength` is declared in
AstroEQ.h, which is not part of the sources under review; the spec's
data-model section fixes "a 6-entry acceleration table". -/
def AccelTableLength : Nat := 6

/-- Per-axis state: the Motion State fields of the `cmd` struct that the
core reads and writes (the Synta layer's `cmd_set...` accessors are plain
stores, modelled as record updates), the per-axis globals of AstroEQ.cpp
(`accelTableIndex`, `accelTableRepeatsLeft`, `gotoPosn`,
`gotoDecelerationLength`, `timerOVF`, goto-control bits), and the
per-axis hardware registers used by the Step Engine
(`currentMotorSpeed` = OCR3A/B, `irqToNextStep` = OCR1A/B,
`distributionSegment` = GPIOR1/2, `interruptOVFCount` = ICR3/1, the
step pin, and the timer run/interrupt-enable state). -/
structure Axis where
  /-- `cmd.jVal`: current absolute position, `unsigned long`. -/
  jVal : Nat
  /-- `cmd.IVal`: commanded target period (set by the I command / gotoMode). -/
  IVal : Nat
  /-- `cmd.currentIVal`: period the engine is currently ramping toward. -/
  currentIVal : Nat
  /-- `cmd.minSpeed`. -/
  minSpeed : Nat
  /-- `cmd.stopSpeed`. -/
  stopSpeed : Nat
  /-- `cmd.siderealIVal`. -/
  siderealIVal : Nat
  /-- `cmd.normalGotoSpeed`. -/
  normalGotoSpeed : Nat
  /-- `cmd.dir`: `true` = CMD_REVERSE, `false` = CMD_FORWARD. -/
  dir : Bool
  /-- `cmd.stepDir`: signed position delta per completed step. -/
  stepDir : Int
  /-- `cmd.highSpeedMode`. -/
  highSpeedMode : Bool
  /-- `cmd.stopped`: `true` = CMD_STOPPED. -/
  stopped : Bool
  /-- `cmd.gotoEn`: `true` = CMD_ENABLED. -/
  gotoEn : Bool
  /-- `cmd.GVal`: mode selector (`signed char` in the dispatcher). -/
  GVal : Int
  /-- `cmd.gVal`: high-speed multiplier (8 when gear change allowed, else 1). -/
  gVal : Nat
  /-- `cmd.HVal`: host-supplied goto distance, `unsigned long`. -/
  HVal : Nat
  /-- `gotoPosn[axis]`: deceleration-start marker, `unsigned long`. -/
  gotoPosn : Nat
  /-- Goto-running bit of GPIOR0. -/
  gotoRunning : Bool
  /-- Goto-decelerating bit of GPIOR0. -/
  gotoDecelerating : Bool
  /-- `cmd.accelTable[axis]`: the acceleration profile. -/
  accelTable : List AccelEntry
  /-- `gotoDecelerationLength[axis]`: set at initialisation from
  `calculateDecelerationLength`. -/
  gotoDecelLen : Nat
  /-- `accelTableIndex[axis]`. -/
  accelTableIndex : Nat
  /-- `accelTableRepeatsLeft[axis]`. -/
  accelTableRepeatsLeft : Nat
  /-- `currentMotorSpeed(m)`: the speed register (current period). -/
  currentMotorSpeed : Nat
  /-- `irqToNextStep(m)`: interrupts remaining until the next half-step. -/
  irqToNextStep : Nat
  /-- `distributionSegment(m)`: cursor for the dithered period table (a byte). -/
  distributionSegment : Nat
  /-- `interruptOVFCount(m)`: the timer top value currently loaded. -/
  interruptOVFCount : Nat
  /-- `timerOVF[axis]`: the 32-slot dithered period table. -/
  timerOVF : List Nat
  /-- Step output pin level. -/
  stepPinHigh : Bool
  /-- Timer armed: prescaler running and capture interrupt enabled
  (`timerEnable` sets it, `timerDisable` clears it). -/
  timerEnabled : Bool
deriving DecidableEq, Repr

/-- Whole-system state for the ST4 handler: both axes plus the ST4
configuration fields of `cmd` (`st4RAIVal[0]` = RA+ guide period,
`st4RAIVal[1]` = RA- guide period, `st4DecIVal` = DC guide period,
`st4RAReverse`). -/
structure Sys where
  ra : Axis
  dc : Axis
  st4RAReverse : Bool
  st4RAIVal0 : Nat
  st4RAIVal1 : Nat
  st4DecIVal : Nat
deriving DecidableEq, Repr

/-- Wrap to an `unsigned long` (32-bit). -/
def wrap32 (n : Nat) : Nat := n % 2 ^ 32

/-- Wrap to an `unsigned int` (16-bit). -/
def wrap16 (n : Nat) : Nat := n % 2 ^ 16

/-- `jVal = jVal + stepDir` in `unsigned long` arithmetic with a signed
increment. -/
def wrapAddInt (j : Nat) (d : Int) : Nat :=
  (((j : Int) + d) % (2 ^ 32 : Int)).toNat

/-- `calculateDecelerationLength` (AstroEQ.cpp:163-179): walk the
acceleration table, accumulating `repeats + 1` per entry, stopping at
the first entry whose `speed <= normalGotoSpeed`; the accumulator is an
`unsigned int`. -/
def calculateDecelerationLength : List AccelEntry → Nat → Nat
  | [], _ => 0
  | e :: rest, gotoSpeed =>
    if e.speed ≤ gotoSpeed then 0
    else wrap16 ((e.repeats + 1) + calculateDecelerationLength rest gotoSpeed)

/-- `motorStartRA` / `motorStartDC` (AstroEQ.cpp:1028-1109), one axis:
compute the stopping speed and start speed, store
`currentIVal := IVal`, the speed register and `stopSpeed`, and if the
axis was stopped also reset the accel-walk state, arm the timer with
the first dithered period, and mark the axis running. -/
def motorStart (s : Axis) : Axis :=
  let stoppingSpeed := if s.IVal > s.minSpeed then s.IVal else s.minSpeed
  let startSpeed :=
    if s.stopped then stoppingSpeed
    else if s.currentMotorSpeed < s.minSpeed then s.currentMotorSpeed
    else stoppingSpeed
  let s1 : Axis :=
    { s with currentIVal := s.IVal
             currentMotorSpeed := startSpeed
             stopSpeed := stoppingSpeed }
  if s1.stopped then
    { s1 with irqToNextStep := 1
              accelTableRepeatsLeft := (s1.accelTable.getD 0 ⟨0, 0⟩).repeats
              accelTableIndex := 0
              distributionSegment := 0
              interruptOVFCount := s1.timerOVF.getD 0 0
              timerEnabled := true
              stopped := false }
  else s1

/-- `motorStopRA(1)` / `motorStopDC(1)` (AstroEQ.cpp:1121-1128): the
emergency branch disables the timer, clears goto state, marks the axis
stopped and switches back to slew mode. (It also clears
`readyToGo[axis]`, which lives outside the axis record and is handled
where the dispatcher is modelled.) -/
def motorStopEmergency (s : Axis) : Axis :=
  { s with timerEnabled := false
           gotoEn := false
           stopped := true
           GVal := 0
           gotoRunning := false }

/-- `motorStopRA(0)` / `motorStopDC(0)` (AstroEQ.cpp:1129-1145): the
graceful branch does nothing when already stopped; otherwise it leaves
goto mode, optionally lowers `stopSpeed` to `minSpeed`, and raises
`currentIVal` above `stopSpeed` so the ISR decelerates to a halt. -/
def motorStopGraceful (s : Axis) : Axis :=
  if s.stopped then s
  else
    let s1 : Axis := { s with gotoEn := false, gotoRunning := false, GVal := 0 }
    let s2 : Axis :=
      if s1.currentIVal < s1.minSpeed then
        if s1.stopSpeed > s1.minSpeed then { s1 with stopSpeed := s1.minSpeed } else s1
      else s1
    { s2 with currentIVal := wrap16 (s2.stopSpeed + 1) }

/-- Repeats value loaded when the accel walk adopts a table entry
(AstroEQ.cpp:1490-1495 and mirror): the table's `repeats`, or in
high-speed mode `repeats * 3 + 2` stored into the byte
`accelTableRepeatsLeft[axis]`. -/
def reloadRepeats (hs : Bool) (r : Nat) : Nat :=
  if hs then (r * 3 + 2) % 2 ^ 8 else r

/-- The accel/decel walk executed on the tick that starts a step pulse
(ISR(TIMER1_CAPT_vect), AstroEQ.cpp:1467-1527, step pin low branch
after the pin is raised): count down `accelTableRepeatsLeft`; once it
reaches zero, step the table index toward the target speed, snapping to
the target at a table boundary or when the adopted entry overshoots,
and reload the repeats counter when an entry is adopted. -/
def speedUpdate (s : Axis) : Axis :=
  let repeatsReqd := s.accelTableRepeatsLeft
  if repeatsReqd = 0 then
    let targetSpeed := s.currentIVal
    let currentSpeed := s.currentMotorSpeed
    if currentSpeed > targetSpeed then
      let accelIndex := s.accelTableIndex
      if accelIndex ≥ AccelTableLength - 1 then
        { s with currentMotorSpeed := targetSpeed }
      else
        let accelIndex := accelIndex + 1
        let e := s.accelTable.getD accelIndex ⟨0, 0⟩
        if e.speed ≤ targetSpeed then
          { s with accelTableIndex := accelIndex, currentMotorSpeed := targetSpeed }
        else
          { s with accelTableIndex := accelIndex
                   currentMotorSpeed := e.speed
                   accelTableRepeatsLeft := reloadRepeats s.highSpeedMode e.repeats }
    else if currentSpeed < targetSpeed then
      let accelIndex := s.accelTableIndex
      if accelIndex = 0 then
        { s with currentMotorSpeed := targetSpeed }
      else
        let accelIndex := accelIndex - 1
        let e := s.accelTable.getD accelIndex ⟨0, 0⟩
        if e.speed ≥ targetSpeed then
          { s with accelTableIndex := accelIndex, currentMotorSpeed := targetSpeed }
        else
          { s with accelTableIndex := accelIndex
                   currentMotorSpeed := e.speed
                   accelTableRepeatsLeft := reloadRepeats s.highSpeedMode e.repeats }
    else s
  else { s with accelTableRepeatsLeft := repeatsReqd - 1 }

/-- One firing of the per-axis timer-capture ISR
(ISR(TIMER1_CAPT_vect) / ISR(TIMER3_CAPT_vect), AstroEQ.cpp:1273-1400
and 1408-1535): decrement `irqToNextStep`; when it reaches zero, reload
the timer top from the dithered period table (the byte-offset lookup
`62 & timeSegment` addresses element `(timeSegment >> 1) mod 32`),
advance the segment cursor, reload `irqToNextStep` from the speed
register, and run either the pulse-completion half (position update,
goto-deceleration latch, stop detection) or the pulse-start half
(accel/decel walk). -/
def tick (s : Axis) : Axis :=
  let irqToNext := (s.irqToNextStep + (2 ^ 16 - 1)) % 2 ^ 16
  if irqToNext ≠ 0 then { s with irqToNextStep := irqToNext }
  else
    let timeSegment := s.distributionSegment
    let index := 62 &&& timeSegment
    let s1 : Axis :=
      { s with interruptOVFCount := s.timerOVF.getD (index / 2) 0
               distributionSegment := (timeSegment + 1) % 2 ^ 8 }
    let currentSpeed := s1.currentMotorSpeed
    let s2 : Axis := { s1 with irqToNextStep := currentSpeed }
    if s2.stepPinHigh then
      let s3 : Axis := { s2 with stepPinHigh := false
                                 jVal := wrapAddInt s2.jVal s2.stepDir }
      let s4 : Axis :=
        if s3.gotoRunning && !s3.gotoDecelerating && (s3.gotoPosn == s3.jVal) then
          { s3 with gotoDecelerating := true
                    currentIVal := wrap16 (s3.stopSpeed + 1)
                    accelTableRepeatsLeft := 0 }
        else s3
      if currentSpeed > s4.stopSpeed then
        let s5 : Axis :=
          if s4.gotoRunning then { s4 with gotoEn := false, gotoRunning := false } else s4
        { s5 with stopped := true, timerEnabled := false }
      else s4
    else
      speedUpdate { s2 with stepPinHigh := true }

/-- `abs(cmd.stepDir[axis])` in `gotoMode` (AstroEQ.cpp:979). -/
def dirMagnitude (s : Axis) : Nat := s.stepDir.natAbs

/-- The high-speed scaling of the deceleration length
(AstroEQ.cpp:973-977): `decelerationLength * 3` in an `unsigned int`
when in high-speed mode. -/
def hsDecelLen (s : Axis) : Nat :=
  if s.highSpeedMode then wrap16 (s.gotoDecelLen * 3) else s.gotoDecelLen

/-- The minimum-distance bump in `gotoMode` (AstroEQ.cpp:982-984): when
`HVal < 2*dirMagnitude`, store `2*dirMagnitude` as the new `HVal`. -/
def gotoBump (s : Axis) : Axis :=
  if s.HVal < 2 * dirMagnitude s then { s with HVal := 2 * dirMagnitude s } else s

/-- Clearing the low three bits (`&= 0xFFFFFFF8`) applied to `HVal` and
`halfHVal` when `dirMagnitude == 8` (AstroEQ.cpp:991-996). -/
def mask8 (dm n : Nat) : Nat := if dm = 8 then n - n % 8 else n

/-- The goto distance after the high-speed alignment mask, as used for
the deceleration-marker computation (applied to the already bumped
state). -/
def gotoMaskedH (s : Axis) : Nat := mask8 (dirMagnitude s) s.HVal

/-- `halfHVal` after the high-speed alignment mask (`HVal >> 1`, then
low bits cleared when `dirMagnitude == 8`). -/
def gotoMaskedHalfH (s : Axis) : Nat := mask8 (dirMagnitude s) (s.HVal / 2)

/-- The deceleration length finally used by `gotoMode` on the (bumped)
state: the table-derived length, tripled in high-speed mode, scaled by
the step magnitude in an `unsigned int`, then clamped to the masked
`halfHVal` (AstroEQ.cpp:986-1000). -/
def gotoDecelFinal (s : Axis) : Nat :=
  let d := wrap16 (hsDecelLen s * dirMagnitude s)
  if gotoMaskedHalfH s < d then gotoMaskedHalfH s else d

/-- `gotoMode` (AstroEQ.cpp:970-1008): scale and clamp the deceleration
length, enforce the minimum distance, compute the deceleration-start
marker `gotoPosn = jVal plus-or-minus (maskedHVal - decelerationLength)` in
`unsigned long` arithmetic, set the target period to `normalGotoSpeed`,
clear the decelerating bit, set the running bit, and start the motor. -/
def gotoMode (s0 : Axis) : Axis :=
  let s := gotoBump s0
  let hrem := gotoMaskedH s - gotoDecelFinal s
  let posn :=
    if s.dir then wrap32 (s.jVal + (2 ^ 32 - wrap32 hrem))
    else wrap32 (s.jVal + hrem)
  motorStart { s with gotoPosn := posn
                      IVal := s.normalGotoSpeed
                      gotoDecelerating := false
                      gotoRunning := true }

/-- `slewMode` (AstroEQ.cpp:966-968): just start the motor. -/
def slewMode (s : Axis) : Axis := motorStart s

/-- Modelled from the spec: `cmd_updateStepDir` lives in the Synta
layer (synta.c), which is not part of the sources under review. Per the
spec's data model, `stepDir` is the signed position delta per completed
step: magnitude as given, sign from the commanded direction `dir`. -/
def cmd_updateStepDir (s : Axis) (n : Nat) : Axis :=
  if s.dir then { s with stepDir := -(n : Int) } else { s with stepDir := (n : Int) }

/-- The per-axis block of the main run loop (AstroEQ.cpp:635-671 for
RA, 672-708 for DC): when `readyToGo[axis] == 1` and the axis is
stopped, reconfigure the microstep mode and `stepDir` from `GVal`
(`GVal == 1 || GVal == 2` selects the normal-speed mode, anything else
the high-speed mode, provided `canJumpToHighspeed`), then start a slew
(odd `GVal`, `readyToGo := 2`) or a goto (even `GVal`,
`readyToGo := 0`). Returns the new axis state and the new
`readyToGo[axis]`. -/
def mainLoopAxis (canJump : Bool) (s : Axis) (readyToGo : Nat) : Axis × Nat :=
  if readyToGo = 1 then
    if s.stopped then
      let s1 :=
        if canJump then
          if s.GVal = 1 ∨ s.GVal = 2 then
            { cmd_updateStepDir s 1 with highSpeedMode := false }
          else
            { cmd_updateStepDir s s.gVal with highSpeedMode := true }
        else
          { cmd_updateStepDir s 1 with highSpeedMode := false }
      if s.GVal % 2 ≠ 0 then (slewMode s1, 2)
      else (gotoMode s1, 0)
    else (s, readyToGo)
  else (s, readyToGo)

/-- The `'I'` case of `decodeCommand` (AstroEQ.cpp:774-789): limit the
decoded period to at least the speed of the last acceleration-table
entry, store it as `IVal`, then either live-update through
`motorStart` (when `readyToGo[axis] == 2`) or reset `readyToGo[axis]`
to 0. Returns the new axis state and the new `readyToGo[axis]`. -/
def decodeI (s : Axis) (readyToGo : Nat) (payload : Nat) : Axis × Nat :=
  let v :=
    if payload < (s.accelTable.getD (AccelTableLength - 1) ⟨0, 0⟩).speed then
      (s.accelTable.getD (AccelTableLength - 1) ⟨0, 0⟩).speed
    else payload
  let s1 : Axis := { s with IVal := v }
  if readyToGo = 2 then (motorStart s1, readyToGo)
  else (s1, 0)

/-- The `'Y'` case of `decodeCommand` (AstroEQ.cpp:883-889): store the
decoded byte into `accelTableIndex[axis]`, then force an error packet
if it is out of range. Takes the previous index and the decoded byte;
returns the stored index and whether the error response is forced. -/
def decodeY (_prevIndex : Nat) (v : Nat) : Nat × Bool :=
  (v, AccelTableLength ≤ v)

/-- The RA half of the ST4 pin-change handler (AstroEQ.cpp:1201-1242),
to be run only when the `gotoEn` gate is open. `raN` and `raP` are
`true` when the RA minus and RA plus pins read LOW (button pressed). -/
def st4RA (s : Sys) (raN raP : Bool) : Sys :=
  let stoppedVar := s.ra.stopped || s.st4RAReverse
  let setRASpeed := fun (d : Bool) (sd : Int) (newSpeed : Nat) =>
    let a : Axis := { s.ra with currentIVal := newSpeed }
    if stoppedVar then
      { s with ra := motorStart { a with stepDir := sd, dir := d, GVal := 1 } }
    else if a.stopSpeed < a.currentIVal then
      { s with ra := { a with stopSpeed := a.currentIVal } }
    else
      { s with ra := a }
  if s.ra.dir && !stoppedVar then
    setRASpeed false 1 s.ra.siderealIVal
  else if raN then
    if s.st4RAReverse then setRASpeed true (-1) s.st4RAIVal1
    else setRASpeed false 1 s.st4RAIVal1
  else if raP then
    setRASpeed false 1 s.st4RAIVal0
  else
    setRASpeed false 1 s.ra.siderealIVal

/-- The DEC half of the ST4 pin-change handler (AstroEQ.cpp:1244-1265),
to be run only when the `gotoEn` gate is open. `dcN` and `dcP` are
`true` when the DEC minus and DEC plus pins read LOW (button pressed). -/
def st4DEC (s : Sys) (dcN dcP : Bool) : Sys :=
  let setDECSpeed := fun (d : Bool) (sd : Int) =>
    { s with dc := motorStart { s.dc with stepDir := sd
                                          dir := d
                                          currentIVal := s.st4DecIVal
                                          GVal := 1 } }
  if dcN then setDECSpeed true (-1)
  else if dcP then setDECSpeed false 1
  else { s with dc := { s.dc with currentIVal := wrap16 (s.dc.stopSpeed + 1) } }

/-- The ST4 pin-change handler (ISR(PCINT0_vect), AstroEQ.cpp:1197-1267):
when neither axis has `gotoEn` set, update RA then DEC from the four
button inputs; otherwise do nothing. -/
def st4Handler (s : Sys) (raN raP dcN dcP : Bool) : Sys :=
  if s.ra.gotoEn || s.dc.gotoEn then s
  else st4DEC (st4RA s raN raP) dcN dcP

/-!
Field-preservation facts about the Motor Controller operations, used
throughout the claim proofs.
-/

@[simp] theorem motorStart_jVal (s : Axis) : (motorStart s).jVal = s.jVal := by
  simp only [motorStart]; split <;> rfl

@[simp] theorem motorStart_IVal (s : Axis) : (motorStart s).IVal = s.IVal := by
  simp only [motorStart]; split <;> rfl

@[simp] theorem motorStart_currentIVal (s : Axis) : (motorStart s).currentIVal = s.IVal := by
  simp only [motorStart]; split <;> rfl

@[simp] theorem motorStart_stopSpeed (s : Axis) :
    (motorStart s).stopSpeed = if s.IVal > s.minSpeed then s.IVal else s.minSpeed := by
  simp only [motorStart]; split <;> rfl

@[simp] theorem motorStart_minSpeed (s : Axis) : (motorStart s).minSpeed = s.minSpeed := by
  simp only [motorStart]; split <;> rfl

@[simp] theorem motorStart_siderealIVal (s : Axis) :
    (motorStart s).siderealIVal = s.siderealIVal := by
  simp only [motorStart]; split <;> rfl

@[simp] theorem motorStart_normalGotoSpeed (s : Axis) :
    (motorStart s).normalGotoSpeed = s.normalGotoSpeed := by
  simp only [motorStart]; split <;> rfl

@[simp] theorem motorStart_dir (s : Axis) : (motorStart s).dir = s.dir := by
  simp only [motorStart]; split <;> rfl

@[simp] theorem motorStart_stepDir (s : Axis) : (motorStart s).stepDir = s.stepDir := by
  simp only [motorStart]; split <;> rfl

@[simp] theorem motorStart_highSpeedMode (s : Axis) :
    (motorStart s).highSpeedMode = s.highSpeedMode := by
  simp only [motorStart]; split <;> rfl

@[simp] theorem motorStart_stopped (s : Axis) : (motorStart s).stopped = false := by
  simp only [motorStart]; split
  · rfl
  · simp_all

@[simp] theorem motorStart_gotoEn (s : Axis) : (motorStart s).gotoEn = s.gotoEn := by
  simp only [motorStart]; split <;> rfl

@[simp] theorem motorStart_GVal (s : Axis) : (motorStart s).GVal = s.GVal := by
  simp only [motorStart]; split <;> rfl

@[simp] theorem motorStart_gVal (s : Axis) : (motorStart s).gVal = s.gVal := by
  simp only [motorStart]; split <;> rfl

@[simp] theorem motorStart_HVal (s : Axis) : (motorStart s).HVal = s.HVal := by
  simp only [motorStart]; split <;> rfl

@[simp] theorem motorStart_gotoPosn (s : Axis) : (motorStart s).gotoPosn = s.gotoPosn := by
  simp only [motorStart]; split <;> rfl

@[simp] theorem motorStart_gotoRunning (s : Axis) :
    (motorStart s).gotoRunning = s.gotoRunning := by
  simp only [motorStart]; split <;> rfl

@[simp] theorem motorStart_gotoDecelerating (s : Axis) :
    (motorStart s).gotoDecelerating = s.gotoDecelerating := by
  simp only [motorStart]; split <;> rfl

@[simp] theorem motorStart_accelTable (s : Axis) :
    (motorStart s).accelTable = s.accelTable := by
  simp only [motorStart]; split <;> rfl

@[simp] theorem motorStart_gotoDecelLen (s : Axis) :
    (motorStart s).gotoDecelLen = s.gotoDecelLen := by
  simp only [motorStart]; split <;> rfl

@[simp] theorem motorStart_timerOVF (s : Axis) : (motorStart s).timerOVF = s.timerOVF := by
  simp only [motorStart]; split <;> rfl

theorem motorStart_accelTableIndex_of_running (s : Axis) (h : s.stopped = false) :
    (motorStart s).accelTableIndex = s.accelTableIndex := by
  simp only [motorStart]; simp [h]

theorem motorStart_distributionSegment_of_running (s : Axis) (h : s.stopped = false) :
    (motorStart s).distributionSegment = s.distributionSegment := by
  simp only [motorStart]; simp [h]

theorem motorStart_timerEnabled_of_running (s : Axis) (h : s.stopped = false) :
    (motorStart s).timerEnabled = s.timerEnabled := by
  simp only [motorStart]; simp [h]

theorem motorStart_timerEnabled_of_stopped (s : Axis) (h : s.stopped = true) :
    (motorStart s).timerEnabled = true := by
  simp only [motorStart]; simp [h]

theorem speedUpdate_stopped (s : Axis) : (speedUpdate s).stopped = s.stopped := by
  simp only [speedUpdate]; split_ifs <;> rfl

theorem speedUpdate_timerEnabled (s : Axis) :
    (speedUpdate s).timerEnabled = s.timerEnabled := by
  simp only [speedUpdate]; split_ifs <;> rfl

theorem speedUpdate_gotoRunning (s : Axis) :
    (speedUpdate s).gotoRunning = s.gotoRunning := by
  simp only [speedUpdate]; split_ifs <;> rfl

theorem speedUpdate_gotoEn (s : Axis) : (speedUpdate s).gotoEn = s.gotoEn := by
  simp only [speedUpdate]; split_ifs <;> rfl

@[simp] theorem gotoBump_stepDir (s : Axis) : (gotoBump s).stepDir = s.stepDir := by
  simp only [gotoBump]; split <;> rfl

@[simp] theorem gotoBump_dirMagnitude (s : Axis) :
    dirMagnitude (gotoBump s) = dirMagnitude s := by
  simp only [dirMagnitude, gotoBump_stepDir]

theorem gotoBump_HVal (s : Axis) :
    (gotoBump s).HVal = max s.HVal (2 * dirMagnitude s) := by
  simp only [gotoBump]; split
  · rename_i h; simp only [Axis.mk.injEq]; omega
  · rename_i h; omega

@[simp] theorem gotoBump_jVal (s : Axis) : (gotoBump s).jVal = s.jVal := by
  simp only [gotoBump]; split <;> rfl

@[simp] theorem gotoBump_dir (s : Axis) : (gotoBump s).dir = s.dir := by
  simp only [gotoBump]; split <;> rfl

@[simp] theorem gotoBump_normalGotoSpeed (s : Axis) :
    (gotoBump s).normalGotoSpeed = s.normalGotoSpeed := by
  simp only [gotoBump]; split <;> rfl

@[simp] theorem gotoBump_highSpeedMode (s : Axis) :
    (gotoBump s).highSpeedMode = s.highSpeedMode := by
  simp only [gotoBump]; split <;> rfl

@[simp] theorem gotoBump_gotoDecelLen (s : Axis) :
    (gotoBump s).gotoDecelLen = s.gotoDecelLen := by
  simp only [gotoBump]; split <;> rfl

@[simp] theorem gotoBump_accelTable (s : Axis) :
    (gotoBump s).accelTable = s.accelTable := by
  simp only [gotoBump]; split <;> rfl

@[simp] theorem gotoMode_highSpeedMode (s : Axis) :
    (gotoMode s).highSpeedMode = s.highSpeedMode := by
  simp [gotoMode]

@[simp] theorem gotoMode_stepDir (s : Axis) : (gotoMode s).stepDir = s.stepDir := by
  simp [gotoMode]

@[simp] theorem gotoMode_stopped (s : Axis) : (gotoMode s).stopped = false := by
  simp [gotoMode]

@[simp] theorem gotoMode_gotoRunning (s : Axis) : (gotoMode s).gotoRunning = true := by
  simp [gotoMode]

@[simp] theorem gotoMode_gotoDecelerating (s : Axis) :
    (gotoMode s).gotoDecelerating = false := by
  simp [gotoMode]

@[simp] theorem gotoMode_currentIVal (s : Axis) :
    (gotoMode s).currentIVal = s.normalGotoSpeed := by
  simp [gotoMode]

theorem gotoMode_HVal (s : Axis) : (gotoMode s).HVal = (gotoBump s).HVal := by
  simp [gotoMode]

theorem gotoMode_gotoPosn (s : Axis) :
    (gotoMode s).gotoPosn =
      (if s.dir then
        wrap32 (s.jVal + (2 ^ 32 - wrap32 (gotoMaskedH (gotoBump s) - gotoDecelFinal (gotoBump s))))
      else
        wrap32 (s.jVal + (gotoMaskedH (gotoBump s) - gotoDecelFinal (gotoBump s)))) := by
  simp [gotoMode]

@[simp] theorem cmd_updateStepDir_natAbs (s : Axis) (n : Nat) :
    (cmd_updateStepDir s n).stepDir.natAbs = n := by
  simp only [cmd_updateStepDir]; split <;> simp

theorem motorStopGraceful_stopped (s : Axis) :
    (motorStopGraceful s).stopped = s.stopped := by
  simp only [motorStopGraceful]; split_ifs <;> rfl

theorem motorStopGraceful_timerEnabled (s : Axis) :
    (motorStopGraceful s).timerEnabled = s.timerEnabled := by
  simp only [motorStopGraceful]; split_ifs <;> rfl

/-!
Concrete states used by the witnesses and counterexamples. `tblStd` is
a monotone 6-entry acceleration table (speeds strictly decreasing, as
the spec's data-model invariant requires); `axStd` is an axis that has
been configured for a high-speed goto (`GVal = 0`, `stepDir = 8`) and
is currently stopped;
`calculateDecelerationLength tblStd 50 = (4+1) + (4+1) = 10`.
-/

def tblStd : List AccelEntry :=
  [⟨3000, 4⟩, ⟨2000, 4⟩, ⟨50, 0⟩, ⟨40, 0⟩, ⟨30, 0⟩, ⟨20, 0⟩]

def ovfStd : List Nat := List.replicate 32 2000

def axStd : Axis :=
  { jVal := 1000, IVal := 1234, currentIVal := 999, minSpeed := 2900,
    stopSpeed := 2950, siderealIVal := 1000, normalGotoSpeed := 50,
    dir := false, stepDir := 8, highSpeedMode := true, stopped := true,
    gotoEn := false, GVal := 0, gVal := 8, HVal := 24, gotoPosn := 0,
    gotoRunning := false, gotoDecelerating := false, accelTable := tblStd,
    gotoDecelLen := 10, accelTableIndex := 0, accelTableRepeatsLeft := 0,
    currentMotorSpeed := 3000, irqToNextStep := 1, distributionSegment := 0,
    interruptOVFCount := 2000, timerOVF := ovfStd,
    stepPinHigh := false, timerEnabled := false }

/-!
Claim theorems.
-/

/-- C9: when `gotoMode` is entered with `HVal < 2 * |stepDir|`, the
stored goto distance is first raised to exactly `2 * |stepDir|`
(AstroEQ.cpp:982-984), so the commanded move — the masked distance the
deceleration planner works with — is at least `2 * |stepDir|` position
units even though the host requested fewer. -/
theorem C9_goto_min_distance (s : Axis) (h : s.HVal < 2 * dirMagnitude s) :
    (gotoMode s).HVal = 2 * dirMagnitude s ∧
    2 * dirMagnitude s ≤ gotoMaskedH (gotoMode s) := by
  have h1 : (gotoMode s).HVal = (gotoBump s).HVal := gotoMode_HVal s
  have h2 : (gotoBump s).HVal = 2 * dirMagnitude s := by
    rw [gotoBump_HVal]; omega
  refine ⟨h1.trans h2, ?_⟩
  have h3 : dirMagnitude (gotoMode s) = dirMagnitude s := by
    simp [dirMagnitude]
  unfold gotoMaskedH
  rw [h3, h1, h2]
  unfold mask8
  split
  · rename_i h8; rw [h8]
  · omega

/-- Witness for C9 at a concrete input: `axStd` with `HVal = 3` and
`|stepDir| = 8` requests fewer than 16 units; the call stores 16 and
plans a 16-unit move. -/
def axC9 : Axis := { axStd with HVal := 3 }

theorem C9_goto_min_distance_witness :
    (gotoMode axC9).HVal = 2 * dirMagnitude axC9 ∧
    2 * dirMagnitude axC9 ≤ gotoMaskedH (gotoMode axC9) :=
  C9_goto_min_distance axC9 (by decide)

/-- C7 (amended): the ST4 pin-change handler's gate (AstroEQ.cpp:1199)
tests `gotoEn`, not `gotoRunning`: a pin change delivered while either
axis has `gotoEn` set leaves the whole system state unchanged.
`gotoRunning` alone does not suppress the handler: the J command
handler (AstroEQ.cpp:926-932) accepts a re-arm unconditionally while a
goto is still running, the completing goto's tick clears `gotoEn`
(AstroEQ.cpp:1457), and the dispatcher then restarts through
`gotoMode`, which never sets `gotoEn` — so a goto can run with
`gotoRunning = true` and `gotoEn = false`, and in that state the
handler does update Motion State. -/
theorem C7_st4_inert_during_goto (s : Sys) (raN raP dcN dcP : Bool)
    (h : s.ra.gotoEn = true ∨ s.dc.gotoEn = true) :
    st4Handler s raN raP dcN dcP = s := by
  have hgate : (s.ra.gotoEn || s.dc.gotoEn) = true := by
    rcases h with h | h <;> simp [h]
  unfold st4Handler
  simp [hgate]

def sysC7 : Sys :=
  { ra := { axStd with stopped := false, gotoEn := true, gotoRunning := true,
                       timerEnabled := true }
    dc := axStd
    st4RAReverse := false
    st4RAIVal0 := 1250
    st4RAIVal1 := 750
    st4DecIVal := 4000 }

theorem C7_st4_inert_during_goto_witness :
    st4Handler sysC7 true false true false = sysC7 :=
  C7_st4_inert_during_goto sysC7 true false true false (by decide)

/-- The state of the re-armed goto: a J command issued while the
previous goto was running left `readyToGo = 1`; the previous goto's
completion tick cleared `gotoEn` together with `gotoRunning` and
stopped the axis; the dispatcher then called `gotoMode`, which set
`gotoRunning` and started the motor at the goto speed (50) but never
set `gotoEn`. -/
def sysC7c : Sys :=
  { ra := { axStd with stopped := false, timerEnabled := true, gotoRunning := true,
                       gotoEn := false, currentIVal := 50, IVal := 50,
                       currentMotorSpeed := 50, stepPinHigh := true }
    dc := axStd
    st4RAReverse := false
    st4RAIVal0 := 1250
    st4RAIVal1 := 750
    st4DecIVal := 4000 }

/-- C7 counterexample: in the reachable state `sysC7c` the RA axis has
`gotoRunning = true` (mid-goto, cruising at the goto speed 50) but
`gotoEn = false`, so the handler's gate passes and an ST4 event with
all buttons released rewrites the RA target speed to `siderealIVal`
(1000) mid-goto — Motion State is not left unchanged while
`gotoRunning` is set, refuting the claim as stated. -/
theorem C7_st4_inert_during_goto_counterexample :
    sysC7c.ra.gotoRunning = true ∧
    sysC7c.ra.currentIVal = 50 ∧
    (st4Handler sysC7c false false false false).ra.currentIVal = 1000 ∧
    st4Handler sysC7c false false false false ≠ sysC7c := by
  decide

/-- C8: the Y command handler (AstroEQ.cpp:883-889) stores the decoded
byte into `accelTableIndex[axis]` before the range check, so a payload
of `AccelTableLength` (= 6) with prior index 0 leaves the out-of-range
value 6 behind while the error response is emitted — the error path
does mutate state, contradicting the spec's no-mutation rule. -/
theorem C8_accel_index_mutation :
    decodeY 0 AccelTableLength = (6, true) ∧ (6 : Nat) ≠ 0 ∧
    ¬ (decodeY 0 AccelTableLength).1 < AccelTableLength := by
  decide

/-- C6 (amended): the I command stores the decoded payload clamped from
below by the speed of the *final* (fastest) acceleration-table entry —
i.e. the target period can never be smaller than the fastest table
speed (AstroEQ.cpp:774-779) — not by the slowest entry's speed as the
claim reads it; when `readyToGo[axis] == 2` the new target takes effect
immediately through `motorStart` (which copies it into `currentIVal`)
without reconfiguring the running motor's accel-walk or timer state,
and otherwise `readyToGo[axis]` is reset to 0. -/
theorem C6_ival_clamp (s : Axis) (rtg payload : Nat) :
    ((decodeI s rtg payload).1.IVal
        = max payload (s.accelTable.getD (AccelTableLength - 1) ⟨0, 0⟩).speed) ∧
    (rtg = 2 →
      (decodeI s rtg payload).2 = 2 ∧
      (decodeI s rtg payload).1.currentIVal
        = max payload (s.accelTable.getD (AccelTableLength - 1) ⟨0, 0⟩).speed ∧
      (s.stopped = false →
        (decodeI s rtg payload).1.accelTableIndex = s.accelTableIndex ∧
        (decodeI s rtg payload).1.distributionSegment = s.distributionSegment ∧
        (decodeI s rtg payload).1.timerEnabled = s.timerEnabled)) ∧
    (rtg ≠ 2 →
      decodeI s rtg payload
        = ({ s with IVal := max payload (s.accelTable.getD (AccelTableLength - 1) ⟨0, 0⟩).speed }, 0)) := by
  have hmax : (if payload < (s.accelTable.getD (AccelTableLength - 1) ⟨0, 0⟩).speed then
        (s.accelTable.getD (AccelTableLength - 1) ⟨0, 0⟩).speed else payload)
      = max payload (s.accelTable.getD (AccelTableLength - 1) ⟨0, 0⟩).speed := by
    split <;> omega
  refine ⟨?_, fun h2 => ⟨?_, ?_, fun hrun => ⟨?_, ?_, ?_⟩⟩, fun hne => ?_⟩
  all_goals simp only [decodeI, hmax]
  · split <;> simp
  · simp [h2]
  · simp [h2]
  · simp only [h2, if_pos]
    rw [motorStart_accelTableIndex_of_running]
    exact hrun
  · simp only [h2, if_pos]
    rw [motorStart_distributionSegment_of_running]
    exact hrun
  · simp only [h2, if_pos]
    rw [motorStart_timerEnabled_of_running]
    exact hrun
  · simp [hne]

def axC6 : Axis := { axStd with stopped := false, timerEnabled := true }

theorem C6_ival_clamp_witness :
    ((decodeI axC6 2 500).1.IVal
        = max 500 (axC6.accelTable.getD (AccelTableLength - 1) ⟨0, 0⟩).speed) ∧
    ((2 : Nat) = 2 →
      (decodeI axC6 2 500).2 = 2 ∧
      (decodeI axC6 2 500).1.currentIVal
        = max 500 (axC6.accelTable.getD (AccelTableLength - 1) ⟨0, 0⟩).speed ∧
      (axC6.stopped = false →
        (decodeI axC6 2 500).1.accelTableIndex = axC6.accelTableIndex ∧
        (decodeI axC6 2 500).1.distributionSegment = axC6.distributionSegment ∧
        (decodeI axC6 2 500).1.timerEnabled = axC6.timerEnabled)) ∧
    ((2 : Nat) ≠ 2 →
      decodeI axC6 2 500
        = ({ axC6 with IVal := max 500 (axC6.accelTable.getD (AccelTableLength - 1) ⟨0, 0⟩).speed }, 0)) :=
  C6_ival_clamp axC6 2 500

/-- C6 counterexample: in the monotone table `tblStd` the slowest entry
is index 0 (largest period, 3000) per the spec's data-model invariant;
the I command with payload 500 stores the target period 500, which is
below the slowest entry's speed, refuting the claim that the stored
target is clamped to be never below the slowest entry's speed (the code
clamps only against the final entry's 20). -/
theorem C6_ival_clamp_counterexample :
    (decodeI axStd 0 500).1.IVal = 500 ∧
    (axStd.accelTable.getD 0 ⟨0, 0⟩).speed = 3000 ∧
    (∀ e ∈ axStd.accelTable, e.speed ≤ 3000) ∧
    (decodeI axStd 0 500).1.IVal < (axStd.accelTable.getD 0 ⟨0, 0⟩).speed := by
  decide

/-- C4 (amended): on a main-loop iteration with `readyToGo[axis] == 1`
and the axis stopped, an odd `GVal` starts a slew and sets
`readyToGo[axis]` to 2, an even `GVal` starts a goto and sets it to 0;
when `canJumpToHighspeed`, exactly `GVal == 1` and `GVal == 2` select
normal-speed mode (`|stepDir| = 1`, `highSpeedMode = false`) while
every other value — including `GVal = 0`, the high-speed goto — selects
high-speed mode with `|stepDir| = gVal`; without `canJumpToHighspeed`
normal mode is always used; when the axis is not stopped, or
`readyToGo[axis] != 1`, nothing changes (AstroEQ.cpp:635-708). -/
theorem C4_ready_dispatch (canJump : Bool) (s : Axis) :
    (s.stopped = false → mainLoopAxis canJump s 1 = (s, 1)) ∧
    (∀ r : Nat, r ≠ 1 → mainLoopAxis canJump s r = (s, r)) ∧
    (s.stopped = true →
      (s.GVal % 2 ≠ 0 →
        (mainLoopAxis canJump s 1).2 = 2 ∧
        (mainLoopAxis canJump s 1).1.stopped = false) ∧
      (s.GVal % 2 = 0 →
        (mainLoopAxis canJump s 1).2 = 0 ∧
        (mainLoopAxis canJump s 1).1.gotoRunning = true ∧
        (mainLoopAxis canJump s 1).1.stopped = false) ∧
      (canJump = true →
        ((s.GVal = 1 ∨ s.GVal = 2) →
          (mainLoopAxis canJump s 1).1.highSpeedMode = false ∧
          (mainLoopAxis canJump s 1).1.stepDir.natAbs = 1) ∧
        (¬(s.GVal = 1 ∨ s.GVal = 2) →
          (mainLoopAxis canJump s 1).1.highSpeedMode = true ∧
          (mainLoopAxis canJump s 1).1.stepDir.natAbs = s.gVal)) ∧
      (canJump = false →
        (mainLoopAxis canJump s 1).1.highSpeedMode = false ∧
        (mainLoopAxis canJump s 1).1.stepDir.natAbs = 1)) := by
  refine ⟨fun hns => ?_, fun r hr => ?_, fun hst => ?_⟩
  · simp [mainLoopAxis, hns]
  · simp [mainLoopAxis, hr]
  · refine ⟨fun hodd => ?_, fun heven => ?_, fun hcj => ⟨fun hnorm => ?_, fun hhs => ?_⟩,
            fun hncj => ?_⟩
    · simp [mainLoopAxis, hst, hodd, slewMode]
    · simp [mainLoopAxis, hst, heven]
    · rcases hnorm with h1 | h1 <;> simp [mainLoopAxis, hst, hcj, h1, slewMode]
    · by_cases hpar : s.GVal % 2 = 0 <;>
        simp [mainLoopAxis, hst, hcj, hhs, hpar, slewMode]
    · by_cases hpar : s.GVal % 2 = 0 <;>
        simp [mainLoopAxis, hst, hncj, hpar, slewMode]

/-- C4 witness at a concrete input: a stopped axis with `GVal = 3`
(odd, high-speed slew) and gear change allowed. -/
def axC4w : Axis := { axStd with GVal := 3 }

theorem C4_ready_dispatch_witness :
    (axC4w.stopped = false → mainLoopAxis true axC4w 1 = (axC4w, 1)) ∧
    (∀ r : Nat, r ≠ 1 → mainLoopAxis true axC4w r = (axC4w, r)) ∧
    (axC4w.stopped = true →
      (axC4w.GVal % 2 ≠ 0 →
        (mainLoopAxis true axC4w 1).2 = 2 ∧
        (mainLoopAxis true axC4w 1).1.stopped = false) ∧
      (axC4w.GVal % 2 = 0 →
        (mainLoopAxis true axC4w 1).2 = 0 ∧
        (mainLoopAxis true axC4w 1).1.gotoRunning = true ∧
        (mainLoopAxis true axC4w 1).1.stopped = false) ∧
      (true = true →
        ((axC4w.GVal = 1 ∨ axC4w.GVal = 2) →
          (mainLoopAxis true axC4w 1).1.highSpeedMode = false ∧
          (mainLoopAxis true axC4w 1).1.stepDir.natAbs = 1) ∧
        (¬(axC4w.GVal = 1 ∨ axC4w.GVal = 2) →
          (mainLoopAxis true axC4w 1).1.highSpeedMode = true ∧
          (mainLoopAxis true axC4w 1).1.stepDir.natAbs = axC4w.gVal)) ∧
      (true = false →
        (mainLoopAxis true axC4w 1).1.highSpeedMode = false ∧
        (mainLoopAxis true axC4w 1).1.stepDir.natAbs = 1)) :=
  C4_ready_dispatch true axC4w

/-- C4 counterexample: `axStd` is stopped with `GVal = 0 ≤ 2` and gear
change allowed; the dispatcher selects the high-speed mode
(`highSpeedMode = true`, `|stepDir| = 8`), refuting the claim that
`GVal ≤ 2` selects normal-speed mode. -/
theorem C4_ready_dispatch_counterexample :
    axStd.GVal ≤ 2 ∧ axStd.stopped = true ∧
    (mainLoopAxis true axStd 1).1.highSpeedMode = true ∧
    (mainLoopAxis true axStd 1).1.stepDir.natAbs = 8 := by
  decide

theorem st4RA_dc (s : Sys) (rn rp : Bool) : (st4RA s rn rp).dc = s.dc := by
  simp only [st4RA]; split_ifs <;> rfl

theorem st4RA_st4DecIVal (s : Sys) (rn rp : Bool) :
    (st4RA s rn rp).st4DecIVal = s.st4DecIVal := by
  simp only [st4RA]; split_ifs <;> rfl

theorem st4DEC_ra (s : Sys) (dn dp : Bool) : (st4DEC s dn dp).ra = s.ra := by
  simp only [st4DEC]; split_ifs <;> rfl

/-- C10 (amended): with no goto enabled and all four ST4 buttons
released, the handler targets sidereal forward for RA and a ramp-down
for DC, but with one deviation from the claim: when the RA axis is
stopped (or `st4RAReverse` is configured) the handler restarts it
through `motorStartRA`, which overwrites the just-written sidereal
target with the last commanded `IVal` (AstroEQ.cpp:1226-1231 followed
by 1052), so the restarted axis tracks at `IVal[RA]`, not necessarily
at `siderealIVal[RA]`; a running RA axis does get
`currentIVal = siderealIVal` (also when it is moving in reverse
without `st4RAReverse`, buttons pressed or not), with `stopSpeed`
raised to the new target so it keeps running; and with neither DC
button pressed `currentIVal[DC]` becomes `stopSpeed[DC] + 1`. -/
theorem C10_st4_release (s : Sys)
    (hra : s.ra.gotoEn = false) (hdc : s.dc.gotoEn = false)
    (hss : s.dc.stopSpeed + 1 < 2 ^ 16) :
    ((s.ra.stopped || s.st4RAReverse) = true →
      (st4Handler s false false false false).ra.currentIVal = s.ra.IVal ∧
      (st4Handler s false false false false).ra.dir = false ∧
      (st4Handler s false false false false).ra.stepDir = 1 ∧
      (st4Handler s false false false false).ra.GVal = 1 ∧
      (st4Handler s false false false false).ra.stopped = false) ∧
    ((s.ra.stopped || s.st4RAReverse) = false →
      (st4Handler s false false false false).ra.currentIVal = s.ra.siderealIVal ∧
      (st4Handler s false false false false).ra.dir = s.ra.dir ∧
      (st4Handler s false false false false).ra.stopped = false ∧
      (st4Handler s false false false false).ra.stopSpeed
        = max s.ra.stopSpeed s.ra.siderealIVal) ∧
    (st4Handler s false false false false).dc.currentIVal = s.dc.stopSpeed + 1 ∧
    (∀ rn rp : Bool, s.ra.dir = true → s.ra.stopped = false → s.st4RAReverse = false →
      (st4Handler s rn rp false false).ra.currentIVal = s.ra.siderealIVal) := by
  have hgate : (s.ra.gotoEn || s.dc.gotoEn) = false := by simp [hra, hdc]
  have hh : ∀ rn rp : Bool,
      st4Handler s rn rp false false = st4DEC (st4RA s rn rp) false false := by
    intro rn rp
    simp [st4Handler, hgate]
  refine ⟨fun hsv => ?_, fun hsv => ?_, ?_, fun rn rp hd hns hrev => ?_⟩
  · rw [hh]
    rw [show (st4DEC (st4RA s false false) false false).ra = (st4RA s false false).ra from
      st4DEC_ra _ _ _]
    simp [st4RA, hsv]
  · rw [hh]
    rw [show (st4DEC (st4RA s false false) false false).ra = (st4RA s false false).ra from
      st4DEC_ra _ _ _]
    rcases Bool.or_eq_false_iff.mp hsv with ⟨hns, hrev⟩
    by_cases hd : s.ra.dir = true <;>
      by_cases hcmp : s.ra.stopSpeed < s.ra.siderealIVal <;>
      simp [st4RA, hns, hrev, hd, hcmp] <;> omega
  · rw [hh]
    have hdcpres : (st4RA s false false).dc = s.dc := st4RA_dc s false false
    simp [st4DEC, hdcpres, wrap16]
    omega
  · rw [hh]
    rw [show (st4DEC (st4RA s rn rp) false false).ra = (st4RA s rn rp).ra from
      st4DEC_ra _ _ _]
    by_cases hcmp : s.ra.stopSpeed < s.ra.siderealIVal <;>
      simp [st4RA, hns, hrev, hd, hcmp]

/-- C10 witness at a concrete input: `sysC10w` has RA running forward
and DC running; releasing all buttons retargets RA to sidereal (1000)
with `stopSpeed` raised, and targets DC to `stopSpeed + 1`. -/
def sysC10w : Sys :=
  { ra := { axStd with stopped := false, stopSpeed := 500, timerEnabled := true }
    dc := { axStd with stopped := false, stopSpeed := 600, timerEnabled := true }
    st4RAReverse := false
    st4RAIVal0 := 800
    st4RAIVal1 := 1333
    st4DecIVal := 4000 }

theorem C10_st4_release_witness :
    ((sysC10w.ra.stopped || sysC10w.st4RAReverse) = true →
      (st4Handler sysC10w false false false false).ra.currentIVal = sysC10w.ra.IVal ∧
      (st4Handler sysC10w false false false false).ra.dir = false ∧
      (st4Handler sysC10w false false false false).ra.stepDir = 1 ∧
      (st4Handler sysC10w false false false false).ra.GVal = 1 ∧
      (st4Handler sysC10w false false false false).ra.stopped = false) ∧
    ((sysC10w.ra.stopped || sysC10w.st4RAReverse) = false →
      (st4Handler sysC10w false false false false).ra.currentIVal
        = sysC10w.ra.siderealIVal ∧
      (st4Handler sysC10w false false false false).ra.dir = sysC10w.ra.dir ∧
      (st4Handler sysC10w false false false false).ra.stopped = false ∧
      (st4Handler sysC10w false false false false).ra.stopSpeed
        = max sysC10w.ra.stopSpeed sysC10w.ra.siderealIVal) ∧
    (st4Handler sysC10w false false false false).dc.currentIVal
      = sysC10w.dc.stopSpeed + 1 ∧
    (∀ rn rp : Bool, sysC10w.ra.dir = true → sysC10w.ra.stopped = false →
      sysC10w.st4RAReverse = false →
      (st4Handler sysC10w rn rp false false).ra.currentIVal
        = sysC10w.ra.siderealIVal) :=
  C10_st4_release sysC10w (by decide) (by decide) (by decide)

/-- C10 counterexample: `sysC10c` has RA stopped with last commanded
`IVal = 1234` and `siderealIVal = 1000`; on release of all buttons the
handler starts RA but leaves `currentIVal[RA] = 1234`, not the claimed
`siderealIVal[RA] = 1000`. -/
def sysC10c : Sys :=
  { ra := axStd
    dc := { axStd with stopped := false, stopSpeed := 600, timerEnabled := true }
    st4RAReverse := false
    st4RAIVal0 := 800
    st4RAIVal1 := 1333
    st4DecIVal := 4000 }

theorem C10_st4_release_counterexample :
    sysC10c.ra.stopped = true ∧ sysC10c.ra.gotoEn = false ∧
    sysC10c.dc.gotoEn = false ∧
    sysC10c.ra.siderealIVal = 1000 ∧
    (st4Handler sysC10c false false false false).ra.currentIVal = 1234 ∧
    (st4Handler sysC10c false false false false).ra.currentIVal
      ≠ sysC10c.ra.siderealIVal := by
  decide

/-- C5 (amended): on a running, armed axis the Step Engine tick disarms
the engine (`stopped := true`, timer disabled) exactly when the tick
fires a half-step (`irqToNextStep` reaches zero), the step pin is high
(so the tick completes a pulse), and `currentSpeed > stopSpeed`
(AstroEQ.cpp:1453-1463); a graceful stop and `motorStart` never change
the disarm state; but additionally an emergency stop
(`motorStop(axis, 1)`, reachable from the L and O commands and the
standalone-mode entry) disarms the engine directly
(AstroEQ.cpp:1121-1128), so the pulse-completion tick is not the only
disarming transition. -/
theorem C5_disarm (s : Axis)
    (hrun : s.stopped = false) (harm : s.timerEnabled = true)
    (hirq : s.irqToNextStep < 2 ^ 16) :
    ((s.irqToNextStep = 1 ∧ s.stepPinHigh = true ∧ s.currentMotorSpeed > s.stopSpeed) →
      (tick s).stopped = true ∧ (tick s).timerEnabled = false) ∧
    (¬(s.irqToNextStep = 1 ∧ s.stepPinHigh = true ∧ s.currentMotorSpeed > s.stopSpeed) →
      (tick s).stopped = false ∧ (tick s).timerEnabled = true) ∧
    ((motorStopGraceful s).stopped = s.stopped ∧
      (motorStopGraceful s).timerEnabled = s.timerEnabled) ∧
    ((motorStart s).stopped = false ∧ (motorStart s).timerEnabled = s.timerEnabled) ∧
    ((motorStopEmergency s).stopped = true ∧
      (motorStopEmergency s).timerEnabled = false) := by
  refine ⟨?_, ?_,
    ⟨motorStopGraceful_stopped s, motorStopGraceful_timerEnabled s⟩,
    ⟨motorStart_stopped s, motorStart_timerEnabled_of_running s hrun⟩,
    ⟨rfl, rfl⟩⟩
  · rintro ⟨h1, hp, hgt⟩
    simp only [tick, h1, hp]
    norm_num
    split <;> simp [hgt]
  · intro hneg
    by_cases h1 : s.irqToNextStep = 1
    · by_cases hp : s.stepPinHigh = true
      · have hgt : ¬ s.currentMotorSpeed > s.stopSpeed := by tauto
        simp only [tick, h1, hp]
        norm_num
        split <;> simp [hgt, hrun, harm]
      · simp only [tick, h1]
        norm_num
        simp only [Bool.not_eq_true] at hp
        simp [hp, speedUpdate_stopped, speedUpdate_timerEnabled, hrun, harm]
    · have hne : ¬ (s.irqToNextStep + 65535) % 65536 = 0 := by omega
      simp [tick, hne, hrun, harm]

def axC5 : Axis :=
  { axStd with stopped := false, timerEnabled := true, stepPinHigh := true,
               irqToNextStep := 1, currentMotorSpeed := 3000, stopSpeed := 2950 }

theorem C5_disarm_witness :
    ((axC5.irqToNextStep = 1 ∧ axC5.stepPinHigh = true ∧
        axC5.currentMotorSpeed > axC5.stopSpeed) →
      (tick axC5).stopped = true ∧ (tick axC5).timerEnabled = false) ∧
    (¬(axC5.irqToNextStep = 1 ∧ axC5.stepPinHigh = true ∧
        axC5.currentMotorSpeed > axC5.stopSpeed) →
      (tick axC5).stopped = false ∧ (tick axC5).timerEnabled = true) ∧
    ((motorStopGraceful axC5).stopped = axC5.stopped ∧
      (motorStopGraceful axC5).timerEnabled = axC5.timerEnabled) ∧
    ((motorStart axC5).stopped = false ∧
      (motorStart axC5).timerEnabled = axC5.timerEnabled) ∧
    ((motorStopEmergency axC5).stopped = true ∧
      (motorStopEmergency axC5).timerEnabled = false) :=
  C5_disarm axC5 (by decide) (by decide) (by decide)

/-- C5 counterexample: an emergency stop of a running, armed axis sets
`stopped` and disables the timer without any step-engine tick, refuting
the claim that the pulse-completion tick is the only disarming
transition. -/
theorem C5_disarm_counterexample :
    axC5.stopped = false ∧ axC5.timerEnabled = true ∧
    (motorStopEmergency axC5).stopped = true ∧
    (motorStopEmergency axC5).timerEnabled = false := by
  decide

/-- C3 (amended): on pulse-start ticks the engine holds the current
speed, counting `accelTableRepeatsLeft` down, for exactly
`accelTableRepeatsLeft` ticks (so a freshly adopted entry is held for
its reloaded repeats count plus one pulses); on the next such tick,
when `currentSpeed` differs from the target, the walk moves one table
entry toward the target — adopting its speed and reloading the repeats
counter — or snaps exactly to the target speed at a table boundary or
when the adopted entry would overshoot; deceleration is the mirror
walk; and in high-speed mode every reloaded repeats value is the table
value multiplied by 3 plus 2 *stored into a byte*, i.e. reduced mod 256
(AstroEQ.cpp:1464-1528). -/
theorem C3_accel_walk (s : Axis) (R : Nat) (hR : s.accelTableRepeatsLeft = R) :
    (∀ k, k ≤ R → speedUpdate^[k] s = { s with accelTableRepeatsLeft := R - k }) ∧
    (s.currentMotorSpeed = s.currentIVal →
      speedUpdate { s with accelTableRepeatsLeft := 0 }
        = { s with accelTableRepeatsLeft := 0 }) ∧
    (s.currentMotorSpeed > s.currentIVal →
      (AccelTableLength - 1 ≤ s.accelTableIndex →
        speedUpdate { s with accelTableRepeatsLeft := 0 }
          = { s with accelTableRepeatsLeft := 0, currentMotorSpeed := s.currentIVal }) ∧
      (s.accelTableIndex < AccelTableLength - 1 →
        ((s.accelTable.getD (s.accelTableIndex + 1) ⟨0, 0⟩).speed ≤ s.currentIVal →
          speedUpdate { s with accelTableRepeatsLeft := 0 }
            = { s with accelTableRepeatsLeft := 0,
                       accelTableIndex := s.accelTableIndex + 1,
                       currentMotorSpeed := s.currentIVal }) ∧
        (s.currentIVal < (s.accelTable.getD (s.accelTableIndex + 1) ⟨0, 0⟩).speed →
          speedUpdate { s with accelTableRepeatsLeft := 0 }
            = { s with accelTableIndex := s.accelTableIndex + 1,
                       currentMotorSpeed := (s.accelTable.getD (s.accelTableIndex + 1) ⟨0, 0⟩).speed,
                       accelTableRepeatsLeft := reloadRepeats s.highSpeedMode (s.accelTable.getD (s.accelTableIndex + 1) ⟨0, 0⟩).repeats }))) ∧
    (s.currentMotorSpeed < s.currentIVal →
      (s.accelTableIndex = 0 →
        speedUpdate { s with accelTableRepeatsLeft := 0 }
          = { s with accelTableRepeatsLeft := 0, currentMotorSpeed := s.currentIVal }) ∧
      (s.accelTableIndex ≠ 0 →
        (s.currentIVal ≤ (s.accelTable.getD (s.accelTableIndex - 1) ⟨0, 0⟩).speed →
          speedUpdate { s with accelTableRepeatsLeft := 0 }
            = { s with accelTableRepeatsLeft := 0,
                       accelTableIndex := s.accelTableIndex - 1,
                       currentMotorSpeed := s.currentIVal }) ∧
        ((s.accelTable.getD (s.accelTableIndex - 1) ⟨0, 0⟩).speed < s.currentIVal →
          speedUpdate { s with accelTableRepeatsLeft := 0 }
            = { s with accelTableIndex := s.accelTableIndex - 1,
                       currentMotorSpeed := (s.accelTable.getD (s.accelTableIndex - 1) ⟨0, 0⟩).speed,
                       accelTableRepeatsLeft := reloadRepeats s.highSpeedMode (s.accelTable.getD (s.accelTableIndex - 1) ⟨0, 0⟩).repeats }))) := by
  refine ⟨?_, fun heq => ?_, fun hgt => ⟨fun htop => ?_, fun hmid => ⟨fun hov => ?_, fun hno => ?_⟩⟩,
          fun hlt => ⟨fun hbot => ?_, fun hnb => ⟨fun hov => ?_, fun hno => ?_⟩⟩⟩
  · intro k
    induction k with
    | zero =>
      intro _
      rw [Function.iterate_zero_apply]
      subst hR
      simp
    | succ k ih =>
      intro hk
      rw [Function.iterate_succ_apply', ih (Nat.le_of_succ_le hk)]
      have hpos : ¬ (R - k = 0) := by omega
      have harith : R - (k + 1) = R - k - 1 := by omega
      rw [harith]
      simp only [speedUpdate, hpos]
      simp
  · simp [speedUpdate, heq]
  · simp [speedUpdate, hgt, htop]
  · have hmid' : ¬ (AccelTableLength - 1 ≤ s.accelTableIndex) := by omega
    simp [speedUpdate, hgt, hmid', hov]
    intro h2
    rw [List.getD_eq_getElem?_getD] at hov
    omega
  · have hmid' : ¬ (AccelTableLength - 1 ≤ s.accelTableIndex) := by omega
    have hno' : ¬ ((s.accelTable.getD (s.accelTableIndex + 1) ⟨0, 0⟩).speed ≤ s.currentIVal) := by
      omega
    simp [speedUpdate, hgt, hmid', hno']
    intro h2
    rw [List.getD_eq_getElem?_getD] at hno'
    omega
  · have hngt : ¬ (s.currentMotorSpeed > s.currentIVal) := by omega
    simp [speedUpdate, hngt, hlt, hbot]
  · have hngt : ¬ (s.currentMotorSpeed > s.currentIVal) := by omega
    simp [speedUpdate, hngt, hlt, hnb, hov]
    intro h2
    rw [List.getD_eq_getElem?_getD] at hov
    omega
  · have hngt : ¬ (s.currentMotorSpeed > s.currentIVal) := by omega
    have hno' : ¬ (s.currentIVal ≤ (s.accelTable.getD (s.accelTableIndex - 1) ⟨0, 0⟩).speed) := by
      omega
    simp [speedUpdate, hngt, hlt, hnb, hno']
    intro h2
    rw [List.getD_eq_getElem?_getD] at hno'
    omega

/-- Acceleration table with a large repeats value (100) to exhibit the
byte truncation of the high-speed reload. -/
def tblC3 : List AccelEntry :=
  [⟨3000, 5⟩, ⟨2000, 100⟩, ⟨1500, 7⟩, ⟨1000, 9⟩, ⟨500, 11⟩, ⟨200, 13⟩]

def axC3 : Axis :=
  { axStd with currentMotorSpeed := 3000, currentIVal := 100,
               accelTable := tblC3, accelTableIndex := 0,
               accelTableRepeatsLeft := 0, highSpeedMode := true,
               stopped := false, timerEnabled := true, stepPinHigh := false }

def axC3w : Axis := { axC3 with accelTableRepeatsLeft := 2 }

theorem C3_accel_walk_witness :
    speedUpdate^[2] axC3w = { axC3w with accelTableRepeatsLeft := 2 - 2 } ∧
    speedUpdate { axC3w with accelTableRepeatsLeft := 0 }
      = { axC3w with accelTableIndex := axC3w.accelTableIndex + 1,
                     currentMotorSpeed := (axC3w.accelTable.getD (axC3w.accelTableIndex + 1) ⟨0, 0⟩).speed,
                     accelTableRepeatsLeft := reloadRepeats axC3w.highSpeedMode (axC3w.accelTable.getD (axC3w.accelTableIndex + 1) ⟨0, 0⟩).repeats } :=
  ⟨(C3_accel_walk axC3w 2 rfl).1 2 (by decide),
   (((C3_accel_walk axC3w 2 rfl).2.2.1 (by decide)).2 (by decide)).2 (by decide)⟩

/-- C3 counterexample: in high-speed mode the reload of a table entry
with `repeats = 100` stores `(100 * 3 + 2) mod 256 = 46` into the byte
`accelTableRepeatsLeft`, not the claimed `100 * 3 + 2 = 302`. -/
theorem C3_accel_walk_counterexample :
    axC3.highSpeedMode = true ∧
    (axC3.accelTable.getD 1 ⟨0, 0⟩).repeats = 100 ∧
    (speedUpdate axC3).accelTableRepeatsLeft = 46 ∧
    (speedUpdate axC3).accelTableRepeatsLeft ≠ 100 * 3 + 2 := by
  decide

/-- On a table whose speeds are non-increasing, the prefix walk of
`calculateDecelerationLength` accumulates exactly the entries whose
speed exceeds the goto speed. -/
theorem calcDecel_eq_filterSum (l : List AccelEntry) (g : Nat)
    (hmono : l.Pairwise (fun a b => b.speed ≤ a.speed)) :
    calculateDecelerationLength l g
      = ((l.filter (fun e => g < e.speed)).map (fun e => e.repeats + 1)).sum % 2 ^ 16 := by
  induction l with
  | nil => simp [calculateDecelerationLength]
  | cons e rest ih =>
    rcases List.pairwise_cons.mp hmono with ⟨hall, hrest⟩
    by_cases hle : e.speed ≤ g
    · have hfilter : (e :: rest).filter (fun x => g < x.speed) = [] := by
        rw [List.filter_eq_nil_iff]
        intro x hx
        simp only [decide_eq_true_eq, not_lt]
        rcases List.mem_cons.mp hx with h | h
        · rw [h]; exact hle
        · exact le_trans (hall x h) hle
      simp [calculateDecelerationLength, hle, hfilter]
    · push_neg at hle
      have hcons : (e :: rest).filter (fun x => g < x.speed)
          = e :: rest.filter (fun x => g < x.speed) := by
        simp [List.filter_cons, hle]
      rw [hcons]
      simp only [calculateDecelerationLength, ih hrest, wrap16, List.map_cons, List.sum_cons]
      rw [if_neg (by omega)]
      omega

/-- The filtered repeats-sum of a table with byte-ranged repeats is at
most 256 per entry. -/
theorem filterSum_le (l : List AccelEntry) (g : Nat)
    (hrep : ∀ e ∈ l, e.repeats ≤ 255) :
    ((l.filter (fun e => g < e.speed)).map (fun e => e.repeats + 1)).sum
      ≤ 256 * l.length := by
  induction l with
  | nil => simp
  | cons e rest ih =>
    have hr : e.repeats ≤ 255 := hrep e (by simp)
    have hrec := ih (fun x hx => hrep x (by simp [hx]))
    rw [List.filter_cons]
    by_cases hc : g < e.speed
    · rw [if_pos (by simpa using hc), List.map_cons, List.sum_cons, List.length_cons]
      omega
    · rw [if_neg (by simpa using hc), List.length_cons]
      omega

/-- C1 (amended): `gotoMode` computes the deceleration length as the
sum of `repeats + 1` over the acceleration-table entries whose speed
exceeds `normalGotoSpeed` (which the initialisation stores in
`gotoDecelerationLength[axis]`), multiplied by 3 in high-speed mode and
by the magnitude of `stepDir`, and clamps it not to `HVal/2` but to the
*masked* `halfHVal` — `(HVal >> 1)` with its low three bits cleared
when `|stepDir| = 8` (AstroEQ.cpp:994-1000); the deceleration-start
marker `gotoPosn` is `jVal + sign(dir) * (maskedHVal - decel)` (with
`HVal` first raised to at least `2 * |stepDir|`); the call sets the
target speed to `normalGotoSpeed`, clears `gotoDecelerating` and sets
`gotoRunning`. -/
theorem C1_goto_deceleration (s : Axis)
    (hdl : s.gotoDecelLen = calculateDecelerationLength s.accelTable s.normalGotoSpeed)
    (hmono : s.accelTable.Pairwise (fun a b => b.speed ≤ a.speed))
    (hrep : ∀ e ∈ s.accelTable, e.repeats ≤ 255)
    (hlen : s.accelTable.length = AccelTableLength)
    (hdm : dirMagnitude s ≤ 8) :
    (gotoDecelFinal (gotoBump s)
      = min ((((s.accelTable.filter (fun e => s.normalGotoSpeed < e.speed)).map (fun e => e.repeats + 1)).sum * (if s.highSpeedMode then 3 else 1)) * dirMagnitude s)
            (gotoMaskedHalfH (gotoBump s))) ∧
    ((gotoMode s).gotoPosn
      = (if s.dir then
          wrap32 (s.jVal + (2 ^ 32 - wrap32 (gotoMaskedH (gotoBump s) - gotoDecelFinal (gotoBump s))))
        else
          wrap32 (s.jVal + (gotoMaskedH (gotoBump s) - gotoDecelFinal (gotoBump s))))) ∧
    (gotoMode s).currentIVal = s.normalGotoSpeed ∧
    (gotoMode s).gotoDecelerating = false ∧
    (gotoMode s).gotoRunning = true := by
  refine ⟨?_, gotoMode_gotoPosn s, gotoMode_currentIVal s,
          gotoMode_gotoDecelerating s, gotoMode_gotoRunning s⟩
  obtain ⟨S, hSdef⟩ : ∃ n, ((s.accelTable.filter (fun e => s.normalGotoSpeed < e.speed)).map
      (fun e => e.repeats + 1)).sum = n := ⟨_, rfl⟩
  rw [hSdef]
  have hb : S ≤ 1536 := by
    have h0 := filterSum_le s.accelTable s.normalGotoSpeed hrep
    rw [hlen, hSdef] at h0
    have h6 : (256 : Nat) * AccelTableLength = 1536 := rfl
    omega
  have hdl2 : s.gotoDecelLen = S := by
    rw [hdl, calcDecel_eq_filterSum s.accelTable s.normalGotoSpeed hmono, hSdef,
        Nat.mod_eq_of_lt (by omega)]
  have hsd : hsDecelLen (gotoBump s) = S * (if s.highSpeedMode then 3 else 1) := by
    unfold hsDecelLen wrap16
    rw [gotoBump_highSpeedMode, gotoBump_gotoDecelLen, hdl2]
    cases hhs : s.highSpeedMode
    · simp
    · simp only [if_pos]
      omega
  have hfac : (if s.highSpeedMode then 3 else 1) ≤ 3 := by split <;> omega
  have hd : wrap16 (hsDecelLen (gotoBump s) * dirMagnitude (gotoBump s))
      = S * (if s.highSpeedMode then 3 else 1) * dirMagnitude s := by
    rw [hsd, gotoBump_dirMagnitude]
    unfold wrap16
    apply Nat.mod_eq_of_lt
    have hmul : S * (if s.highSpeedMode then 3 else 1) * dirMagnitude s ≤ 1536 * 3 * 8 :=
      Nat.mul_le_mul (Nat.mul_le_mul hb hfac) hdm
    omega
  simp only [gotoDecelFinal]
  rw [hd]
  split_ifs <;> omega

theorem C1_goto_deceleration_witness :
    (gotoDecelFinal (gotoBump axStd)
      = min ((((axStd.accelTable.filter (fun e => axStd.normalGotoSpeed < e.speed)).map (fun e => e.repeats + 1)).sum * (if axStd.highSpeedMode then 3 else 1)) * dirMagnitude axStd)
            (gotoMaskedHalfH (gotoBump axStd))) ∧
    ((gotoMode axStd).gotoPosn
      = (if axStd.dir then
          wrap32 (axStd.jVal + (2 ^ 32 - wrap32 (gotoMaskedH (gotoBump axStd) - gotoDecelFinal (gotoBump axStd))))
        else
          wrap32 (axStd.jVal + (gotoMaskedH (gotoBump axStd) - gotoDecelFinal (gotoBump axStd))))) ∧
    (gotoMode axStd).currentIVal = axStd.normalGotoSpeed ∧
    (gotoMode axStd).gotoDecelerating = false ∧
    (gotoMode axStd).gotoRunning = true :=
  C1_goto_deceleration axStd (by decide) (by decide) (by decide) (by decide) (by decide)

/-- C1 counterexample: `axStd` is a high-speed goto (`|stepDir| = 8`)
with `HVal = 24`, table-derived deceleration length 10 and `jVal =
1000`. The code clamps the scaled length (240) to the *masked* half
distance `(24 >> 1) & ~7 = 8` and places the marker at `1000 + (24 - 8)
= 1016`; the claim's formula — clamp to `HVal/2 = 12` (the same value
whether or not `HVal` is first masked) — would place it at `1000 + (24
- 12) = 1012`. -/
theorem C1_goto_deceleration_counterexample :
    calculateDecelerationLength axStd.accelTable axStd.normalGotoSpeed = 10 ∧
    axStd.gotoDecelLen = 10 ∧ axStd.highSpeedMode = true ∧
    dirMagnitude axStd = 8 ∧ axStd.HVal = 24 ∧ axStd.dir = false ∧ axStd.jVal = 1000 ∧
    (gotoMode axStd).gotoPosn = 1016 ∧
    axStd.jVal + ((axStd.HVal - axStd.HVal % 8) - min (10 * 3 * 8) (axStd.HVal / 2)) = 1012 ∧
    axStd.jVal + ((axStd.HVal - axStd.HVal % 8) - min (10 * 3 * 8) ((axStd.HVal - axStd.HVal % 8) / 2)) = 1012 ∧
    (1016 : Nat) ≠ 1012 := by
  decide

end AstroEQ
